import Mathlib

/-
Verification development for the TuneTools backend core.

The Python services under src/backend/services are embedded shallowly:
pure computations become Lean functions over Nat, Int, Rat, String and
List; the Supabase database and object storage become an explicit state
record threaded through the album service; fallible Python code (code
that can raise) returns Except.  External SaaS calls (Gemini, OpenAI,
SerpAPI, NewsAPI, WorldNewsAPI) are represented by their outcomes, since
only the orchestration logic around them belongs to this repository.
-/

namespace TuneTools

/-! ## Image model (services/vinyl_disk.py)

Images are total pixel functions together with a width and a height.
PNG decoding and encoding are treated as the identity on this
representation, so the service is studied directly on decoded images. -/

structure RGBA where
  r : ℕ
  g : ℕ
  b : ℕ
  a : ℕ
deriving DecidableEq

structure Img where
  w : ℕ
  h : ℕ
  px : ℕ → ℕ → RGBA

/-- Modelled from the spec: PIL ImageDraw filled-ellipse rasterisation
(PIL is an external library, not part of this repository).  The spec
describes the mask as a filled disk of a given radius centered at a
given point, so a pixel is inside the disk when its squared euclidean
distance from the center is at most the squared radius. -/
def inDisk (cx cy radius x y : ℕ) : Prop :=
  ((x : ℤ) - cx) ^ 2 + ((y : ℤ) - cy) ^ 2 ≤ (radius : ℤ) ^ 2

instance (cx cy radius x y : ℕ) : Decidable (inDisk cx cy radius x y) := by
  unfold inDisk; infer_instance

/-- Embedding of create_vinyl_mask (vinyl_disk.py lines 12-49).  The
mask is a grayscale pixel function: the outer disk of radius
min_dim / 2 is drawn with value 255, then the inner hole of radius
int(outer_radius * hole_ratio) is drawn over it with value 0; the
background stays 0.  Python int() on a nonnegative float truncates,
which is Int.floor here; hole_ratio is carried as an exact rational. -/
def create_vinyl_mask (size : ℕ × ℕ) (hole_ratio : ℚ) : ℕ → ℕ → ℕ :=
  let width := size.1
  let height := size.2
  let min_dim := min width height
  let outer_radius := min_dim / 2
  let center_x := width / 2
  let center_y := height / 2
  let inner_radius := (⌊(outer_radius : ℚ) * hole_ratio⌋).toNat
  fun x y =>
    if inDisk center_x center_y inner_radius x y then 0
    else if inDisk center_x center_y outer_radius x y then 255
    else 0

/-- Center crop to a square (vinyl_disk.py lines 97-106): the side is
the smaller dimension and the offsets use integer floor division. -/
def cropSquare (img : Img) : Img :=
  let min_dim := min img.w img.h
  let left := (img.w - min_dim) / 2
  let top := (img.h - min_dim) / 2
  { w := min_dim, h := min_dim, px := fun x y => img.px (left + x) (top + y) }

/-- Embedding of VinylDiskService.create_vinyl_disk (vinyl_disk.py
lines 63-126).  The resample argument stands for the PIL LANCZOS
resize of the cropped square to disk_size x disk_size (an external
floating-point resampling kernel, not code of this repository); the
theorems below only assume facts about its output that the claims
need.  The hole-ratio validation of lines 84-86 substitutes the
default 0.14 outside the open interval (0, 0.5).  Pasting through the
mask onto the transparent canvas keeps the canvas pixel where the mask
is 0 and copies the source pixel where the mask is 255; the mask built
above only takes these two values. -/
def create_vinyl_disk (resample : Img → ℕ → Img) (img : Img)
    (disk_size : ℕ) (hole_ratio : ℚ) : Img :=
  let hr := if 0 < hole_ratio ∧ hole_ratio < 1 / 2 then hole_ratio else 14 / 100
  let img_square := cropSquare img
  let img_resized := resample img_square disk_size
  let mask := create_vinyl_mask (disk_size, disk_size) hr
  { w := disk_size, h := disk_size,
    px := fun x y => if mask x y = 255 then img_resized.px x y else ⟨0, 0, 0, 0⟩ }

/-- Identity resampler: on an input that is already square of the
target size, PIL resize returns a copy of the image, so the identity
is the exact behaviour for the concrete test images used below. -/
def idResample : Img → ℕ → Img := fun i _ => i

/-- Claim C1 as stated, at one input: the output of create_vinyl_disk
is disk_size x disk_size, the pixel at (disk_size / 2, disk_size / 2)
is fully transparent and the pixel at (disk_size / 2, 1) is fully
opaque. -/
def vinylClaimC1 (resample : Img → ℕ → Img) (img : Img)
    (disk_size : ℕ) (hole_ratio : ℚ) : Prop :=
  (create_vinyl_disk resample img disk_size hole_ratio).w = disk_size ∧
  (create_vinyl_disk resample img disk_size hole_ratio).h = disk_size ∧
  ((create_vinyl_disk resample img disk_size hole_ratio).px
      (disk_size / 2) (disk_size / 2)).a = 0 ∧
  ((create_vinyl_disk resample img disk_size hole_ratio).px
      (disk_size / 2) 1).a = 255

/-- Claim C9 as stated, at one pair of parameters: the hole cut out of
the vinyl mask is the disk of radius round(disk_size / 2 * hole_ratio)
(rounded, not truncated) centered at (disk_size / 2, disk_size / 2);
pixels inside it are 0 and pixels between it and the outer radius are
255. -/
def vinylMaskClaimC9 (d : ℕ) (ρ : ℚ) : Prop :=
  ∀ x y, x < d → y < d →
    (inDisk (d / 2) (d / 2) ((round (((d / 2 : ℕ) : ℚ) * ρ)).toNat) x y →
      create_vinyl_mask (d, d) ρ x y = 0) ∧
    (¬ inDisk (d / 2) (d / 2) ((round (((d / 2 : ℕ) : ℚ) * ρ)).toNat) x y →
      inDisk (d / 2) (d / 2) (d / 2) x y →
      create_vinyl_mask (d, d) ρ x y = 255)

/-- A 2 x 2 fully opaque test image. -/
def img2opaque : Img := ⟨2, 2, fun _ _ => ⟨9, 9, 9, 255⟩⟩

/-- An 8 x 8 fully transparent test image. -/
def img8transparent : Img := ⟨8, 8, fun _ _ => ⟨9, 9, 9, 0⟩⟩

/-- A 4 x 4 fully opaque test image. -/
def img4opaque : Img := ⟨4, 4, fun _ _ => ⟨1, 2, 3, 255⟩⟩

/-- Evaluation lemma: the vinyl mask on a square canvas, with the
inner truncated radius and the outer radius d / 2 spelled out. -/
theorem create_vinyl_mask_eval (d : ℕ) (ρ : ℚ) (x y : ℕ) :
    create_vinyl_mask (d, d) ρ x y =
      if inDisk (d / 2) (d / 2) ((⌊((d / 2 : ℕ) : ℚ) * ρ⌋).toNat) x y then 0
      else if inDisk (d / 2) (d / 2) (d / 2) x y then 255 else 0 := by
  simp only [create_vinyl_mask, min_self]

/-- Evaluation lemma for the pixels of create_vinyl_disk. -/
theorem create_vinyl_disk_px (resample : Img → ℕ → Img) (img : Img)
    (d : ℕ) (ρ : ℚ) (x y : ℕ) :
    (create_vinyl_disk resample img d ρ).px x y =
      if create_vinyl_mask (d, d)
          (if 0 < ρ ∧ ρ < 1 / 2 then ρ else 14 / 100) x y = 255
      then (resample (cropSquare img) d).px x y else ⟨0, 0, 0, 0⟩ := by
  simp only [create_vinyl_disk]

/-- Concrete evaluation of the truncated inner radius at
disk_size = 20, hole_ratio = 3 / 8. -/
theorem floor_ten_three_eighths :
    (⌊((20 / 2 : ℕ) : ℚ) * (3 / 8)⌋).toNat = 3 := by
  have h : ⌊((20 / 2 : ℕ) : ℚ) * (3 / 8)⌋ = 3 := by norm_num
  rw [h]; rfl

/-- Concrete evaluation of the rounded inner radius at disk_size = 20,
hole_ratio = 3 / 8, as the spec computes it. -/
theorem round_ten_three_eighths :
    (round (((20 / 2 : ℕ) : ℚ) * (3 / 8))).toNat = 4 := by
  have h : round (((20 / 2 : ℕ) : ℚ) * (3 / 8)) = 4 := by norm_num [round_eq]
  rw [h]; rfl

/-- The center pixel always lies in the hole disk, whatever its
radius. -/
theorem center_in_disk (c i : ℕ) : inDisk c c i c c := by
  unfold inDisk
  simp only [sub_self]
  positivity

/-- The truncated inner radius is at most R - 2 when the hole ratio is
below one half and R is at least 2. -/
theorem inner_radius_le_sub_two (R : ℕ) (ρ : ℚ) (hρ0 : 0 < ρ)
    (hρ1 : ρ < 1 / 2) (hR : 2 ≤ R) : (⌊(R : ℚ) * ρ⌋).toNat ≤ R - 2 := by
  have hRQ : (0 : ℚ) < (R : ℚ) := by exact_mod_cast (by omega : 0 < R)
  have hfloor0 : 0 ≤ ⌊(R : ℚ) * ρ⌋ := Int.floor_nonneg.mpr (by positivity)
  have hlt : (⌊(R : ℚ) * ρ⌋ : ℚ) < (R : ℚ) * (1 / 2) :=
    lt_of_le_of_lt (Int.floor_le _) (mul_lt_mul_of_pos_left hρ1 hRQ)
  have h2 : (2 * ⌊(R : ℚ) * ρ⌋ : ℤ) < (R : ℤ) := by
    have hq : ((2 * ⌊(R : ℚ) * ρ⌋ : ℤ) : ℚ) < ((R : ℤ) : ℚ) := by
      push_cast
      linarith
    exact_mod_cast hq
  omega

/-- The pixel (R, 1) on the vertical axis is outside any hole of
radius at most R - 2 and inside the outer disk of radius R. -/
theorem axis_pixel_facts (R i : ℕ) (hiR : i ≤ R - 2) (hR : 2 ≤ R) :
    ¬ inDisk R R i R 1 ∧ inDisk R R R R 1 := by
  have c2 : (2 : ℤ) ≤ (R : ℤ) := by omega
  constructor
  · unfold inDisk
    push_neg
    push_cast
    have f1 : (1 : ℤ) ≤ (R : ℤ) - 1 - (i : ℤ) := by omega
    have f2 : (1 : ℤ) ≤ (R : ℤ) - 1 + (i : ℤ) := by omega
    have f3 : (1 : ℤ) * 1 ≤ ((R : ℤ) - 1 - (i : ℤ)) * ((R : ℤ) - 1 + (i : ℤ)) :=
      mul_le_mul f1 f2 (by norm_num) (by omega)
    nlinarith [f3]
  · unfold inDisk
    push_cast
    nlinarith [c2]

/-- C1, counterexample.  The claim quantifies over every decodable
input image and every positive disk size, but it fails at
disk_size = 2 (where the pixel (disk_size / 2, 1) = (1, 1) is the
center pixel of the inner hole, hence transparent, for any input) and
it fails at disk_size = 8 on a fully transparent input image (the
paste copies the source alpha, so the pixel at (4, 1) is not opaque).
-/
theorem C1_counterexample :
    ¬ vinylClaimC1 idResample img2opaque 2 (1 / 4) ∧
    ¬ vinylClaimC1 idResample img8transparent 8 (1 / 4) := by
  constructor
  · intro h
    have hx : ((create_vinyl_disk idResample img2opaque 2 (1 / 4)).px
        (2 / 2) 1).a = 0 := by
      rw [create_vinyl_disk_px,
        if_pos (by norm_num : (0 : ℚ) < 1 / 4 ∧ (1 / 4 : ℚ) < 1 / 2),
        create_vinyl_mask_eval]
      rw [show (⌊((2 / 2 : ℕ) : ℚ) * (1 / 4)⌋).toNat = 0 from by
        have h0 : ⌊((2 / 2 : ℕ) : ℚ) * (1 / 4)⌋ = 0 := by norm_num
        rw [h0]; rfl]
      norm_num [inDisk, idResample, cropSquare, img2opaque]
    have h4 := h.2.2.2
    rw [hx] at h4
    exact absurd h4 (by decide)
  · intro h
    have hx : ((create_vinyl_disk idResample img8transparent 8 (1 / 4)).px
        (8 / 2) 1).a = 0 := by
      rw [create_vinyl_disk_px,
        if_pos (by norm_num : (0 : ℚ) < 1 / 4 ∧ (1 / 4 : ℚ) < 1 / 2),
        create_vinyl_mask_eval]
      rw [show (⌊((8 / 2 : ℕ) : ℚ) * (1 / 4)⌋).toNat = 1 from by
        have h0 : ⌊((8 / 2 : ℕ) : ℚ) * (1 / 4)⌋ = 1 := by norm_num
        rw [h0]; rfl]
      norm_num [inDisk, idResample, cropSquare, img8transparent]
    have h4 := h.2.2.2
    rw [hx] at h4
    exact absurd h4 (by decide)

/-- C1, amended: for every input image all of whose pixels are fully
opaque, every hole ratio in (0, 0.5) and every disk size at least 4,
the vinyl disk output is disk_size x disk_size RGBA, transparent at
the exact center and fully opaque at (disk_size / 2, 1).  The
hypothesis ha records that resampling a fully opaque image yields a
fully opaque image, which holds for the PIL LANCZOS kernel since its
normalised weights sum to one on a constant alpha channel. -/
theorem C1_amended (resample : Img → ℕ → Img) (img : Img) (d : ℕ) (ρ : ℚ)
    (hd : 4 ≤ d) (hρ0 : 0 < ρ) (hρ1 : ρ < 1 / 2)
    (ha : ∀ x y, ((resample (cropSquare img) d).px x y).a = 255) :
    vinylClaimC1 resample img d ρ := by
  have hval : 0 < ρ ∧ ρ < 1 / 2 := ⟨hρ0, hρ1⟩
  have hR : 2 ≤ d / 2 := by omega
  have hinner := inner_radius_le_sub_two (d / 2) ρ hρ0 hρ1 hR
  have haxis := axis_pixel_facts (d / 2) _ hinner hR
  refine ⟨rfl, rfl, ?_, ?_⟩
  · rw [create_vinyl_disk_px, if_pos hval, create_vinyl_mask_eval,
      if_pos (center_in_disk (d / 2) ((⌊((d / 2 : ℕ) : ℚ) * ρ⌋).toNat)),
      if_neg (by decide : ¬ ((0 : ℕ) = 255))]
  · rw [create_vinyl_disk_px, if_pos hval, create_vinyl_mask_eval,
      if_neg haxis.1, if_pos haxis.2, if_pos rfl]
    exact ha (d / 2) 1

/-- C1, witness for the amended theorem at a concrete instance. -/
theorem C1_amended_witness : vinylClaimC1 idResample img4opaque 4 (1 / 4) :=
  C1_amended idResample img4opaque 4 (1 / 4) (by norm_num) (by norm_num)
    (by norm_num) (fun _ _ => rfl)

/-- C9, counterexample.  With disk_size = 20 and hole_ratio = 3 / 8
(both exactly representable, so the Python float arithmetic is exact),
the spec radius is round(10 * 3 / 8) = round(3.75) = 4, so the claim
makes the pixel (10, 6), at squared distance 16 from the center,
transparent; the code truncates int(10 * 3 / 8) = 3 and that pixel is
opaque (255). -/
theorem C9_counterexample : ¬ vinylMaskClaimC9 20 (3 / 8) := by
  intro h
  have h6 := (h 10 6 (by norm_num) (by norm_num)).1
  rw [round_ten_three_eighths] at h6
  have h0 : create_vinyl_mask (20, 20) (3 / 8) 10 6 = 0 := h6 (by decide)
  have h255 : create_vinyl_mask (20, 20) (3 / 8) 10 6 = 255 := by
    rw [create_vinyl_mask_eval, floor_ten_three_eighths, if_neg (by decide),
      if_pos (by decide)]
  rw [h0] at h255
  exact absurd h255 (by decide)

/-- C9, amended: the hole cut out of the vinyl mask is the disk of
radius int(disk_size / 2 * hole_ratio) — truncated, not rounded —
centered at (disk_size / 2, disk_size / 2); pixels inside it are 0 and
pixels between it and the outer radius disk_size / 2 are 255. -/
theorem C9_amended (d : ℕ) (ρ : ℚ) (hρ0 : 0 < ρ) (hρ1 : ρ < 1 / 2)
    (x y : ℕ) (hx : x < d) (hy : y < d) :
    (inDisk (d / 2) (d / 2) ((⌊((d / 2 : ℕ) : ℚ) * ρ⌋).toNat) x y →
      create_vinyl_mask (d, d) ρ x y = 0) ∧
    (¬ inDisk (d / 2) (d / 2) ((⌊((d / 2 : ℕ) : ℚ) * ρ⌋).toNat) x y →
      inDisk (d / 2) (d / 2) (d / 2) x y →
      create_vinyl_mask (d, d) ρ x y = 255) := by
  constructor
  · intro hin
    rw [create_vinyl_mask_eval, if_pos hin]
  · intro hnotin hin
    rw [create_vinyl_mask_eval, if_neg hnotin, if_pos hin]

/-- C9, witness for the amended theorem at a concrete instance. -/
theorem C9_amended_witness :
    0 < (3 / 8 : ℚ) ∧ create_vinyl_mask (20, 20) (3 / 8) 10 6 = 255 :=
  ⟨by norm_num,
    (C9_amended 20 (3 / 8) (by norm_num) (by norm_num) 10 6 (by norm_num)
      (by norm_num)).2 (by rw [floor_ten_three_eighths]; decide) (by decide)⟩

/-! ## Date model (services/album.py, get_week_boundaries)

Python datetime values are modelled by the proleptic Gregorian ordinal
of the date part (datetime.toordinal, with ordinal 1 = 0001-01-01, a
Monday) together with the microsecond of the day.  The Python datetime
type is bounded: datetime.max.toordinal() is 3652059 (9999-12-31), and
date arithmetic leaving the bounds raises OverflowError, modelled here
as Except.error (the datetime module is the Python standard library,
external to the repository; only its documented arithmetic is
modelled). -/

def pyMaxOrdinal : ℕ := 3652059

structure PyDateTime where
  ord : ℕ
  micro : ℕ
deriving DecidableEq

def PyDateTime.valid (t : PyDateTime) : Prop :=
  1 ≤ t.ord ∧ t.ord ≤ pyMaxOrdinal ∧ t.micro < 86400000000

instance (t : PyDateTime) : Decidable t.valid := by
  unfold PyDateTime.valid; infer_instance

/-- Python datetime.weekday: Monday is 0 and ordinal 1 is a Monday. -/
def PyDateTime.weekday (t : PyDateTime) : ℕ := (t.ord + 6) % 7

/-- Python datetime plus timedelta(days = k), keeping the time of day;
raises OverflowError outside the representable range. -/
def addDays (t : PyDateTime) (k : ℤ) : Except String PyDateTime :=
  if h : 1 ≤ (t.ord : ℤ) + k ∧ (t.ord : ℤ) + k ≤ (pyMaxOrdinal : ℤ) then
    .ok ⟨((t.ord : ℤ) + k).toNat, t.micro⟩
  else
    .error "OverflowError: date value out of range"

/-- Embedding of AlbumService.get_week_boundaries (album.py lines
32-54): week_start is the reference date minus its weekday with the
time replaced by midnight, and week_end is week_start plus 6 days with
the time replaced by 23:59:59.999999.  A raised OverflowError
propagates, as in Python. -/
def get_week_boundaries (date : PyDateTime) :
    Except String (PyDateTime × PyDateTime) :=
  match addDays date (-(date.weekday : ℤ)) with
  | .error e => .error e
  | .ok ws0 =>
    let week_start : PyDateTime := ⟨ws0.ord, 0⟩
    match addDays week_start 6 with
    | .error e => .error e
    | .ok we0 => .ok (week_start, ⟨we0.ord, 86399999999⟩)

/-- Chronological order on model datetimes. -/
def dtLe (s t : PyDateTime) : Prop :=
  s.ord < t.ord ∨ (s.ord = t.ord ∧ s.micro ≤ t.micro)

/-- Claim C2 as stated, at one input: get_week_boundaries returns,
without raising, a pair (week_start, week_end) where week_start is the
Monday on or before the input at midnight, week_end is week_start plus
6 days at the last microsecond of the day, and the input lies between
them. -/
def weekClaimC2 (d : PyDateTime) : Prop :=
  ∃ ws we, get_week_boundaries d = .ok (ws, we) ∧
    ws.weekday = 0 ∧ ws.micro = 0 ∧ ws.ord = d.ord - d.weekday ∧
    we.ord = ws.ord + 6 ∧ we.micro = 86399999999 ∧ dtLe ws d ∧ dtLe d we

/-- C2, counterexample.  The claim asserts the function raises no
exception for any datetime input, but for 9999-12-28 (ordinal 3652056,
a Tuesday) the Sunday of the week falls past datetime.max and the
week_start + timedelta(days=6) step raises OverflowError. -/
theorem C2_counterexample :
    PyDateTime.valid ⟨3652056, 0⟩ ∧ ¬ weekClaimC2 ⟨3652056, 0⟩ := by
  constructor
  · decide
  · intro h
    obtain ⟨ws, we, h1, -⟩ := h
    have he : get_week_boundaries ⟨3652056, 0⟩ =
        .error "OverflowError: date value out of range" := rfl
    rw [he] at h1
    exact Except.noConfusion h1

/-- C2, amended: for every valid datetime whose week fits inside the
Python datetime range (its Monday plus 6 days is at most 9999-12-31),
get_week_boundaries returns the Monday-midnight week start and the
Sunday-last-instant week end bracketing the input; inputs in the final
partial week of year 9999 instead raise OverflowError. -/
theorem addDays_ok (o m : ℕ) (k : ℤ) (h1 : 1 ≤ (o : ℤ) + k)
    (h2 : (o : ℤ) + k ≤ (pyMaxOrdinal : ℤ)) :
    addDays ⟨o, m⟩ k = .ok ⟨((o : ℤ) + k).toNat, m⟩ :=
  dif_pos ⟨h1, h2⟩

theorem C2_amended (d : PyDateTime) (hv : d.valid)
    (hrange : d.ord + 6 ≤ pyMaxOrdinal + d.weekday) : weekClaimC2 d := by
  obtain ⟨hv1, hv2, hv3⟩ := hv
  have hmax : pyMaxOrdinal = 3652059 := rfl
  have hwd : d.weekday = (d.ord + 6) % 7 := rfl
  rw [hmax] at hv2 hrange
  have e1 : addDays d (-(d.weekday : ℤ)) = .ok ⟨d.ord - d.weekday, d.micro⟩ := by
    have h := addDays_ok d.ord d.micro (-(d.weekday : ℤ)) (by omega)
      (by rw [hmax]; omega)
    rw [show ((d.ord : ℤ) + -(d.weekday : ℤ)).toNat = d.ord - d.weekday by
      omega] at h
    exact h
  have e2 : addDays ⟨d.ord - d.weekday, 0⟩ 6 =
      .ok ⟨d.ord - d.weekday + 6, 0⟩ := by
    have h := addDays_ok (d.ord - d.weekday) 0 6 (by omega)
      (by rw [hmax]; omega)
    rw [show (((d.ord - d.weekday : ℕ) : ℤ) + 6).toNat =
        d.ord - d.weekday + 6 by omega] at h
    exact h
  refine ⟨⟨d.ord - d.weekday, 0⟩, ⟨d.ord - d.weekday + 6, 86399999999⟩,
    ?_, ?_, rfl, rfl, rfl, rfl, ?_, ?_⟩
  · simp only [get_week_boundaries, e1, e2]
  · show (d.ord - d.weekday + 6) % 7 = 0
    omega
  · show d.ord - d.weekday < d.ord ∨
      (d.ord - d.weekday = d.ord ∧ 0 ≤ d.micro)
    omega
  · show d.ord < d.ord - d.weekday + 6 ∨
      (d.ord = d.ord - d.weekday + 6 ∧ d.micro ≤ 86399999999)
    omega

/-- C2, witness for the amended theorem at a concrete instance
(ordinal 738000 is 2021-07-29, a Thursday). -/
theorem C2_amended_witness : weekClaimC2 ⟨738000, 12345⟩ :=
  C2_amended ⟨738000, 12345⟩ (by decide) (by decide)

/-! ## News aggregation model (services/news_aggregator.py) -/

structure Article where
  title : String
  url : String
deriving DecidableEq

/-- Python str.lower, modelled character by character (Python strings
are modelled by their character sequences). -/
def pyLower (s : String) : String := ⟨s.data.map Char.toLower⟩

/-- Python str.strip with no argument: drop leading and trailing
whitespace. -/
def pyStrip (s : String) : String :=
  ⟨((s.data.dropWhile Char.isWhitespace).reverse.dropWhile
      Char.isWhitespace).reverse⟩

/-- Normalised title used for deduplication (news_aggregator.py line
305): lowercase, then strip surrounding whitespace. -/
def normTitle (a : Article) : String := pyStrip (pyLower a.title)

/-- The three news backends.  The boolean flags model the presence of
the SERPAPI / NEWSAPI / WORLDNEWS API keys; each fetch function stands
for the corresponding HTTP helper, represented by its outcome for the
given categories, location and count (the helpers only wrap external
HTTP services, so the orchestration logic is what is embedded). -/
structure NewsProviders where
  serpapi_key : Bool
  newsapi_key : Bool
  worldnews_key : Bool
  serpapi : Option (List String) → String → ℕ → Except Unit (List Article)
  newsapi : Option (List String) → String → ℕ → Except Unit (List Article)
  worldnews : Option (List String) → String → ℕ → Except Unit (List Article)

/-- One block of the fallback chain: a configured provider is invoked
once; its result counts as success only when it is a nonempty list
(the Python code tests `if articles:`); an exception advances the
chain. -/
def tryStep (key : Bool) (res : Except Unit (List Article)) :
    Option (List Article) :=
  if key then
    match res with
    | .ok articles => if articles.isEmpty then none else some articles
    | .error _ => none
  else none

/-- Trace contribution of one block: the provider name when the
provider is configured (hence invoked), nothing otherwise. -/
def traceStep (key : Bool) (name : String) : List String :=
  if key then [name] else []

/-- Embedding of NewsAggregatorService._fetch_with_fallback
(news_aggregator.py lines 92-137), instrumented with the list of
providers actually invoked, in order: SerpAPI, then NewsAPI, then
WorldNewsAPI; when the chain is exhausted the empty list is
returned. -/
def fetch_with_fallback (P : NewsProviders) (categories : Option (List String))
    (location : String) (count : ℕ) : List Article × List String :=
  let t1 := traceStep P.serpapi_key "serpapi"
  match tryStep P.serpapi_key (P.serpapi categories location count) with
  | some a => (a, t1)
  | none =>
    let t2 := t1 ++ traceStep P.newsapi_key "newsapi"
    match tryStep P.newsapi_key (P.newsapi categories location count) with
    | some a => (a, t2)
    | none =>
      let t3 := t2 ++ traceStep P.worldnews_key "worldnews"
      match tryStep P.worldnews_key (P.worldnews categories location count) with
      | some a => (a, t3)
      | none => ([], t3)

/-- Embedding of _deduplicate_articles (news_aggregator.py lines
298-311): seen holds the normalised titles already kept, the list is
scanned in order and an article is kept when its normalised title is
new. -/
def deduplicateAux (seen : List String) : List Article → List Article
  | [] => []
  | a :: rest =>
    if normTitle a ∈ seen then deduplicateAux seen rest
    else a :: deduplicateAux (normTitle a :: seen) rest

def deduplicate_articles (articles : List Article) : List Article :=
  deduplicateAux [] articles

/-- The significand of the IEEE binary64 double nearest to 0.7: the
Python literal 0.7 denotes exactly FLOAT07_NUM / 2 ^ 53 (which is
slightly below 7 / 10). -/
def FLOAT07_NUM : ℕ := 6305039478318694

/-- Smallest s with a < 2 ^ (53 + s): the amount by which a exceeds 53
bits.  The fuel argument only bounds the recursion structurally; fuel
= a always suffices since the answer is below the bit length of a. -/
def shiftAux (a : ℕ) : ℕ → ℕ → ℕ
  | s, 0 => s
  | s, fuel + 1 => if a < 2 ^ (53 + s) then s else shiftAux a (s + 1) fuel

def floatShift (a : ℕ) : ℕ := shiftAux a 0 a

/-- Python int(n * 0.7) computed exactly: the exact product
n * FLOAT07_NUM / 2 ^ 53 is rounded to the nearest 53-bit significand
(ties to even), as IEEE binary64 multiplication does, and the rounded
value is truncated by int().  Exponent overflow of the double is not
modelled; it would need a product of at least 2 ^ 1024, far beyond any
article count. -/
def int_mul_float07 (n : ℕ) : ℕ :=
  let a := n * FLOAT07_NUM
  let s := floatShift a
  if s = 0 then a / 2 ^ 53
  else
    let q := a / 2 ^ s
    let r := a % 2 ^ s
    let half := 2 ^ (s - 1)
    let q' := if r < half then q
      else if half < r then q + 1
      else if q % 2 = 0 then q else q + 1
    q' * 2 ^ s / 2 ^ 53

/-- Embedding of fetch_news (news_aggregator.py lines 35-90).  The
cached argument is the outcome of the cache lookup of lines 55-61
(some value on a fresh hit, none otherwise); a hit short-circuits the
whole fetch.  Python computes preferred_count as
int(max_articles * 0.7) in IEEE double arithmetic, embedded exactly by
int_mul_float07; this differs from the exact floor(0.7 * n) at n = 90
and many other counts. -/
def fetch_news (P : NewsProviders) (user_categories : List String)
    (location : String) (max_articles : ℕ)
    (cached : Option (List Article)) : List Article :=
  match cached with
  | some c => c
  | none =>
    let preferred_count := int_mul_float07 max_articles
    let general_count := max_articles - preferred_count
    let preferred_articles :=
      (fetch_with_fallback P (some user_categories) location preferred_count).1
    let general_articles :=
      (fetch_with_fallback P none location general_count).1
    let all_articles := preferred_articles ++ general_articles
    let unique_articles := deduplicate_articles all_articles
    unique_articles.take max_articles

/-! ## Image generation model (services/image_generation.py) -/

/-- Raw image bytes. -/
abbrev Bytes := List ℕ

/-- The image providers: availability flags for the two API keys, the
outcome of each external generation call, and the bundled placeholder
asset bytes read by _generate_default_placeholder. -/
structure ImageProviders where
  gemini_available : Bool
  openai_available : Bool
  gemini_result : Except Unit Bytes
  openai_result : Except Unit Bytes
  placeholder : Bytes

/-- One block of the image chain: an available provider is invoked
once and succeeds when no exception is raised. -/
def tryImage (avail : Bool) (res : Except Unit Bytes) : Option Bytes :=
  if avail then
    match res with
    | .ok b => some b
    | .error _ => none
  else none

/-- Embedding of ImageGenerationService.generate_album_artwork
(image_generation.py lines 47-96), instrumented with the list of
providers actually invoked, in order: Gemini first, then OpenAI
DALL-E; when both fail the bundled placeholder is returned together
with the failed flag set to true. -/
def generate_album_artwork (p : ImageProviders) : (Bytes × Bool) × List String :=
  let t1 := traceStep p.gemini_available "gemini"
  match tryImage p.gemini_available p.gemini_result with
  | some b => ((b, false), t1)
  | none =>
    let t2 := t1 ++ traceStep p.openai_available "openai"
    match tryImage p.openai_available p.openai_result with
    | some b => ((b, false), t2)
    | none => ((p.placeholder, true), t2)

/-- Every article kept by deduplication has a normalised title outside
the seen set and is the first article of the scanned list with its
normalised title. -/
theorem mem_deduplicateAux {a : Article} :
    ∀ (l : List Article) (seen : List String), a ∈ deduplicateAux seen l →
      normTitle a ∉ seen ∧
      ∃ p q, l = p ++ a :: q ∧ ∀ b ∈ p, normTitle b ≠ normTitle a := by
  intro l
  induction l with
  | nil =>
    intro seen h
    simp [deduplicateAux] at h
  | cons x rest ih =>
    intro seen h
    simp only [deduplicateAux] at h
    by_cases hx : normTitle x ∈ seen
    · rw [if_pos hx] at h
      obtain ⟨hns, p, q, hpq, hp⟩ := ih seen h
      refine ⟨hns, x :: p, q, by rw [hpq, List.cons_append], ?_⟩
      intro b hb
      rcases List.mem_cons.mp hb with hbx | hbp
      · subst hbx
        intro he
        exact hns (he ▸ hx)
      · exact hp b hbp
    · rw [if_neg hx] at h
      rcases List.mem_cons.mp h with rfl | h2
      · exact ⟨hx, [], rest, rfl, by simp⟩
      · obtain ⟨hns, p, q, hpq, hp⟩ := ih _ h2
        have hne : normTitle a ≠ normTitle x := by
          intro he
          exact hns (by rw [he]; exact List.mem_cons_self _ _)
        have hns2 : normTitle a ∉ seen := fun hc => hns (List.mem_cons_of_mem _ hc)
        refine ⟨hns2, x :: p, q, by rw [hpq, List.cons_append], ?_⟩
        intro b hb
        rcases List.mem_cons.mp hb with hbx | hbp
        · subst hbx
          exact hne.symm
        · exact hp b hbp

/-- Deduplication output has pairwise distinct normalised titles. -/
theorem pairwise_deduplicateAux :
    ∀ (l : List Article) (seen : List String),
      (deduplicateAux seen l).Pairwise (fun a b => normTitle a ≠ normTitle b) := by
  intro l
  induction l with
  | nil =>
    intro seen
    simp [deduplicateAux]
  | cons x rest ih =>
    intro seen
    simp only [deduplicateAux]
    by_cases hx : normTitle x ∈ seen
    · rw [if_pos hx]
      exact ih seen
    · rw [if_neg hx]
      refine List.pairwise_cons.mpr ⟨?_, ih _⟩
      intro b hb
      have hb2 := (mem_deduplicateAux rest _ hb).1
      intro he
      exact hb2 (by rw [← he]; exact List.mem_cons_self _ _)

/-- Claim C7 as stated (split direction): an uncached fetch_news call
requests exactly floor(maxArticles * 0.7) articles, in the exact
mathematical sense, from the preferred pool and the rest from the
general pool, concatenates preferred before general, deduplicates and
truncates. -/
def newsSplitClaim : Prop :=
  ∀ (P : NewsProviders) (user_categories : List String) (location : String)
    (n : ℕ), 0 < n →
    fetch_news P user_categories location n none =
      (deduplicate_articles
        ((fetch_with_fallback P (some user_categories) location (n * 7 / 10)).1 ++
          (fetch_with_fallback P none location (n - n * 7 / 10)).1)).take n

/-- A provider that reveals the requested count: it returns the
article x exactly when asked for 63 items and the article y
otherwise. -/
def newsProvidersCount : NewsProviders :=
  ⟨true, false, false,
    fun _ _ c => .ok (if c = 63 then [⟨"x", "u"⟩] else [⟨"y", "u"⟩]),
    fun _ _ _ => .error (), fun _ _ _ => .error ()⟩

/-- C7, counterexample: at maxArticles = 90 the program computes
int(90 * 0.7) = 62 in IEEE double arithmetic (90 * 0.7 rounds to
62.99999999999999), not the exact floor(0.7 * 90) = 63 the claim
states, so against a count-revealing provider the fetched list differs
from the claimed one. -/
theorem C7_counterexample : ¬ newsSplitClaim := by
  intro h
  have h90 := h newsProvidersCount [] "US" 90 (by norm_num)
  have hl : fetch_news newsProvidersCount [] "US" 90 none =
      [⟨"y", "u"⟩] := rfl
  have hr : (deduplicate_articles
      ((fetch_with_fallback newsProvidersCount (some []) "US"
          (90 * 7 / 10)).1 ++
        (fetch_with_fallback newsProvidersCount none "US"
          (90 - 90 * 7 / 10)).1)).take 90 =
      [⟨"x", "u"⟩, ⟨"y", "u"⟩] := rfl
  rw [hl, hr] at h90
  exact absurd h90 (by decide)

/-- C7, amended: an uncached fetch_news call requests
int(maxArticles * 0.7) articles, computed in IEEE double arithmetic,
from the preferred pool and the rest from the general pool,
concatenates preferred before general, deduplicates by lowercased
trimmed title keeping the first occurrence (so preferred entries win
ties), and returns at most maxArticles articles with pairwise distinct
normalised titles. -/
theorem C7_amended (P : NewsProviders) (user_categories : List String)
    (location : String) (n : ℕ) (hn : 0 < n) :
    fetch_news P user_categories location n none =
      (deduplicate_articles
        ((fetch_with_fallback P (some user_categories) location
            (int_mul_float07 n)).1 ++
          (fetch_with_fallback P none location
            (n - int_mul_float07 n)).1)).take n ∧
    (fetch_news P user_categories location n none).length ≤ n ∧
    (fetch_news P user_categories location n none).Pairwise
      (fun a b => normTitle a ≠ normTitle b) ∧
    ∀ a ∈ fetch_news P user_categories location n none,
      ∃ p q,
        (fetch_with_fallback P (some user_categories) location
            (int_mul_float07 n)).1 ++
          (fetch_with_fallback P none location
            (n - int_mul_float07 n)).1 = p ++ a :: q ∧
        ∀ b ∈ p, normTitle b ≠ normTitle a := by
  have he : fetch_news P user_categories location n none =
      (deduplicate_articles
        ((fetch_with_fallback P (some user_categories) location
            (int_mul_float07 n)).1 ++
          (fetch_with_fallback P none location
            (n - int_mul_float07 n)).1)).take n := rfl
  refine ⟨he, ?_, ?_, ?_⟩
  · rw [he, List.length_take]
    exact min_le_left _ _
  · rw [he]
    exact (pairwise_deduplicateAux _ []).sublist (List.take_sublist _ _)
  · intro a ha
    rw [he] at ha
    have ha2 := List.take_subset _ _ ha
    exact (mem_deduplicateAux _ [] ha2).2

/-- The providers used by the C7 witness: the preferred pool yields
two articles whose titles collide after normalisation, the general
pool yields one more. -/
def newsProvidersW : NewsProviders :=
  ⟨true, true, true,
    fun cats _ _ =>
      match cats with
      | some _ => .ok [⟨"aa", "u1"⟩, ⟨"aa ", "u2"⟩]
      | none => .ok [⟨"bb", "u3"⟩],
    fun _ _ _ => .error (), fun _ _ _ => .error ()⟩

/-- C7, witness for the amended theorem at a concrete instance. -/
theorem C7_amended_witness :
    0 < 3 ∧
    (fetch_news newsProvidersW ["tech"] "US" 3 none).length ≤ 3 ∧
    (fetch_news newsProvidersW ["tech"] "US" 3 none).Pairwise
      (fun a b => normTitle a ≠ normTitle b) :=
  ⟨by norm_num,
    (C7_amended newsProvidersW ["tech"] "US" 3 (by norm_num)).2.1,
    (C7_amended newsProvidersW ["tech"] "US" 3 (by norm_num)).2.2.1⟩

/-- Each trace block is a sublist of the singleton with its provider
name. -/
theorem traceStep_sublist (k : Bool) (nm : String) :
    List.Sublist (traceStep k nm) [nm] := by
  cases k <;> simp [traceStep]

/-- C4: within a single chain invocation, providers are attempted
strictly in declared order and each is invoked at most once (the trace
is a sublist of the declared provider order, for the news chain and
for the image chain); with providers [fail, succeed, fail] the news
chain returns the second result and never invokes the third, and with
[fail, succeed] the image chain returns the second result after
invoking both in order. -/
theorem C4_theorem :
    (∀ (P : NewsProviders) (categories : Option (List String))
        (location : String) (count : ℕ),
      List.Sublist (fetch_with_fallback P categories location count).2
          ["serpapi", "newsapi", "worldnews"] ∧
      ∀ s, ((fetch_with_fallback P categories location count).2).count s ≤ 1) ∧
    (∀ (p : ImageProviders),
      List.Sublist (generate_album_artwork p).2 ["gemini", "openai"] ∧
      ∀ s, ((generate_album_artwork p).2).count s ≤ 1) ∧
    (∀ (categories : Option (List String)) (location : String) (count : ℕ)
        (a : Article) (rest : List Article),
      fetch_with_fallback
        ⟨true, true, true, fun _ _ _ => .error (),
          fun _ _ _ => .ok (a :: rest), fun _ _ _ => .error ()⟩
        categories location count = (a :: rest, ["serpapi", "newsapi"])) ∧
    (∀ (b placeholder : Bytes),
      generate_album_artwork ⟨true, true, .error (), .ok b, placeholder⟩ =
        ((b, false), ["gemini", "openai"])) := by
  refine ⟨?_, ?_, fun _ _ _ _ _ => rfl, fun _ _ => rfl⟩
  · intro P categories location count
    suffices hsub : List.Sublist (fetch_with_fallback P categories location count).2
        ["serpapi", "newsapi", "worldnews"] by
      refine ⟨hsub, fun s => le_trans (hsub.count_le s) ?_⟩
      exact List.nodup_iff_count_le_one.mp (by decide) s
    rcases hm1 : tryStep P.serpapi_key (P.serpapi categories location count)
      with _ | a1
    · rcases hm2 : tryStep P.newsapi_key (P.newsapi categories location count)
        with _ | a2
      · rcases hm3 : tryStep P.worldnews_key
            (P.worldnews categories location count) with _ | a3 <;>
          simp only [fetch_with_fallback, hm1, hm2, hm3] <;>
          exact ((traceStep_sublist _ _).append
            (traceStep_sublist _ _)).append (traceStep_sublist _ _)
      · simp only [fetch_with_fallback, hm1, hm2]
        exact ((traceStep_sublist _ _).append (traceStep_sublist _ _)).trans
          (List.sublist_append_left ["serpapi", "newsapi"] ["worldnews"])
    · simp only [fetch_with_fallback, hm1]
      exact (traceStep_sublist _ _).trans
        (List.sublist_append_left ["serpapi"] ["newsapi", "worldnews"])
  · intro p
    suffices hsub : List.Sublist (generate_album_artwork p).2 ["gemini", "openai"] by
      refine ⟨hsub, fun s => le_trans (hsub.count_le s) ?_⟩
      exact List.nodup_iff_count_le_one.mp (by decide) s
    rcases hm1 : tryImage p.gemini_available p.gemini_result with _ | b1
    · rcases hm2 : tryImage p.openai_available p.openai_result with _ | b2 <;>
        simp only [generate_album_artwork, hm1, hm2] <;>
        exact (traceStep_sublist _ _).append (traceStep_sublist _ _)
    · simp only [generate_album_artwork, hm1]
      exact (traceStep_sublist _ _).trans
        (List.sublist_append_left ["gemini"] ["openai"])

/-- A provider outcome that the chain does not accept: an exception or
an empty article list. -/
def failedOrEmpty (r : Except Unit (List Article)) : Prop :=
  r = .error () ∨ r = .ok []

/-- A chain block yields none exactly when the provider is not
configured or its outcome is an exception or an empty list. -/
theorem tryStep_eq_none (k : Bool) (r : Except Unit (List Article)) :
    tryStep k r = none ↔ (k = true → failedOrEmpty r) := by
  cases k
  · simp [tryStep]
  · rcases r with e | al
    · cases e
      simp [tryStep, failedOrEmpty]
    · cases al <;> simp [tryStep, failedOrEmpty]

/-- A chain block never yields an empty article list. -/
theorem tryStep_some_ne_nil (k : Bool) (r : Except Unit (List Article))
    (a : List Article) (h : tryStep k r = some a) : a ≠ [] := by
  cases k
  · simp [tryStep] at h
  · rcases r with e | al
    · simp [tryStep] at h
    · cases al with
      | nil => simp [tryStep] at h
      | cons x t =>
        simp [tryStep] at h
        rw [← h]
        simp

/-- A successful chain block refutes the failed-or-empty predicate on
its provider. -/
theorem tryStep_some_not_failed (k : Bool) (r : Except Unit (List Article))
    (a : List Article) (h : tryStep k r = some a) :
    ¬ (k = true → failedOrEmpty r) := by
  intro himp
  cases k
  · simp [tryStep] at h
  · rcases himp rfl with rfl | rfl
    · simp [tryStep] at h
    · simp [tryStep] at h

/-- C10: a provider returning an empty list without an exception is
not a success: the chain advances exactly as if the provider were not
configured, and the chain result is empty precisely when every
configured provider raised or returned an empty list. -/
theorem C10_theorem (P : NewsProviders) (categories : Option (List String))
    (location : String) (count : ℕ) :
    (P.serpapi_key = true → P.serpapi categories location count = .ok [] →
      (fetch_with_fallback P categories location count).1 =
        (fetch_with_fallback { P with serpapi_key := false }
          categories location count).1) ∧
    ((fetch_with_fallback P categories location count).1 = [] ↔
      ((P.serpapi_key = true →
          failedOrEmpty (P.serpapi categories location count)) ∧
       (P.newsapi_key = true →
          failedOrEmpty (P.newsapi categories location count)) ∧
       (P.worldnews_key = true →
          failedOrEmpty (P.worldnews categories location count)))) := by
  constructor
  · intro hk he
    have h1 : tryStep P.serpapi_key (P.serpapi categories location count) = none := by
      rw [hk, he]
      simp [tryStep]
    have h1f : tryStep false (P.serpapi categories location count) = none := by
      simp [tryStep]
    rcases hm2 : tryStep P.newsapi_key (P.newsapi categories location count)
      with _ | a2
    · rcases hm3 : tryStep P.worldnews_key
          (P.worldnews categories location count) with _ | a3 <;>
        simp [fetch_with_fallback, h1, h1f, hm2, hm3]
    · simp [fetch_with_fallback, h1, h1f, hm2]
  · rcases hm1 : tryStep P.serpapi_key (P.serpapi categories location count)
      with _ | a1
    · rcases hm2 : tryStep P.newsapi_key (P.newsapi categories location count)
        with _ | a2
      · rcases hm3 : tryStep P.worldnews_key
            (P.worldnews categories location count) with _ | a3
        · simp only [fetch_with_fallback, hm1, hm2, hm3]
          refine iff_of_true trivial
            ⟨(tryStep_eq_none _ _).mp hm1, (tryStep_eq_none _ _).mp hm2,
              (tryStep_eq_none _ _).mp hm3⟩
        · simp only [fetch_with_fallback, hm1, hm2, hm3]
          exact iff_of_false (tryStep_some_ne_nil _ _ _ hm3)
            (fun hc => tryStep_some_not_failed _ _ _ hm3 hc.2.2)
      · simp only [fetch_with_fallback, hm1, hm2]
        exact iff_of_false (tryStep_some_ne_nil _ _ _ hm2)
          (fun hc => tryStep_some_not_failed _ _ _ hm2 hc.2.1)
    · simp only [fetch_with_fallback, hm1]
      exact iff_of_false (tryStep_some_ne_nil _ _ _ hm1)
        (fun hc => tryStep_some_not_failed _ _ _ hm1 hc.1)

/-- The providers used by the C10 witness: SerpAPI configured but
returning an empty list, NewsAPI returning one article, WorldNewsAPI
failing. -/
def newsProvidersEmptyW : NewsProviders :=
  ⟨true, true, true, fun _ _ _ => .ok [], fun _ _ _ => .ok [⟨"tt", "uu"⟩],
    fun _ _ _ => .error ()⟩

/-- C10, witness: the empty SerpAPI success is skipped exactly like an
unconfigured provider. -/
theorem C10_witness :
    (fetch_with_fallback newsProvidersEmptyW none "US" 5).1 =
      (fetch_with_fallback { newsProvidersEmptyW with serpapi_key := false }
        none "US" 5).1 :=
  (C10_theorem newsProvidersEmptyW none "US" 5).1 rfl rfl

/-! ## Album service model (services/album.py)

The Supabase albums table and the vinyl_disks storage bucket become an
explicit state record.  The byte-level vinyl transform (the
VinylDiskService call on encoded bytes, whose pixel-level behaviour is
studied in the image model above) is a parameter vt, and the image
generation service is the provider record of the image model. -/

structure AlbumRow where
  id : ℕ
  user_id : String
  name : String
  week_start : ℕ
  week_end : ℕ
  vinyl_disk_url : String
  song_count : ℕ
  is_complete : Bool
deriving DecidableEq

structure DB where
  albums : List AlbumRow
  next_id : ℕ
  storage : List (String × Bytes)
  gen_count : ℕ
deriving DecidableEq

/-- Row predicate for the (user_id, week_start) key. -/
def albumKey (user_id : String) (week_start_date : ℕ) (r : AlbumRow) : Bool :=
  decide (r.user_id = user_id ∧ r.week_start = week_start_date)

/-- Embedding of AlbumService._get_album_by_week (album.py lines
101-117): the supabase .single() query returns the row when exactly
one row matches the key; any other cardinality raises, which the
service catches and turns into None. -/
def get_album_by_week (db : DB) (user_id : String) (week_start_date : ℕ) :
    Option AlbumRow :=
  match db.albums.filter (albumKey user_id week_start_date) with
  | [r] => some r
  | _ => none

/-- Embedding of _upload_vinyl_disk (album.py lines 182-238): the
object key is user_id/week_start_vinyl.png; an existing object under
the key is removed and the upload retried, so the key ends up mapping
to the new bytes; the public URL is modelled by the storage key. -/
def upload_vinyl_disk (db : DB) (user_id : String) (week_start : ℕ)
    (vinyl_data : Bytes) : DB × String :=
  let filename := user_id ++ "/" ++ toString week_start ++ "_vinyl.png"
  ({ db with storage :=
      (filename, vinyl_data) ::
        db.storage.filter (fun kv => decide (kv.1 ≠ filename)) },
    filename)

/-- Embedding of _create_new_album (album.py lines 119-180).  The
insert goes through the uniqueness constraint on (user_id, week_start)
that the design requires of the persistence layer; a conflicting
insert raises, and the function catches nothing, so the error
propagates.  The song_themes and user_preferences arguments only feed
the external prompt text and are omitted.  The instrumentation counter
gen_count records invocations of the artwork provider chain. -/
def create_new_album (vt : Bytes → Bytes) (p : ImageProviders) (db : DB)
    (user_id : String) (week_start week_end : PyDateTime)
    (custom_cover_data : Option Bytes) :
    Except String (DB × AlbumRow × Bool) :=
  let album_name := "Week of " ++ toString week_start.ord
  let step : Bytes × Bool × DB :=
    match custom_cover_data with
    | some c => (c, false, db)
    | none =>
      ((generate_album_artwork p).1.1, ((generate_album_artwork p).1.2,
        { db with gen_count := db.gen_count + 1 }))
  let vinyl_data := vt step.1
  let up := upload_vinyl_disk step.2.2 user_id week_start.ord vinyl_data
  let db2 := up.1
  let vinyl_disk_url := up.2
  if db2.albums.any (albumKey user_id week_start.ord) then
    .error "duplicate key value violates unique constraint"
  else
    let row : AlbumRow :=
      { id := db2.next_id, user_id := user_id, name := album_name,
        week_start := week_start.ord, week_end := week_end.ord,
        vinyl_disk_url := vinyl_disk_url, song_count := 0, is_complete := false }
    .ok ({ db2 with albums := row :: db2.albums, next_id := db2.next_id + 1 },
      row, step.2.1)

/-- Embedding of get_or_create_weekly_album (album.py lines 56-99).
The concurrent argument is applied to the state between the existence
lookup and the creation path: it stands for writes committed by other
request tasks inside that window, and is the identity for an isolated
caller.  Exceptions from the week computation or from the insert
propagate: the function catches nothing. -/
def get_or_create_weekly_album (vt : Bytes → Bytes) (p : ImageProviders)
    (concurrent : DB → DB) (db : DB) (user_id : String) (date : PyDateTime)
    (custom_cover_data : Option Bytes) :
    Except String (DB × AlbumRow × Bool) :=
  match get_week_boundaries date with
  | .error e => .error e
  | .ok (week_start, week_end) =>
    match get_album_by_week db user_id week_start.ord with
    | some existing => .ok (db, existing, false)
    | none =>
      create_new_album vt p (concurrent db) user_id week_start week_end
        custom_cover_data

/-- Well-formed albums table: at most one row per (user_id,
week_start) key, the invariant the uniqueness constraint maintains. -/
def wfAlbums (db : DB) : Prop :=
  db.albums.Pairwise
    (fun r s => ¬ (r.user_id = s.user_id ∧ r.week_start = s.week_start))

/-- Under the uniqueness invariant a key filter keeps at most one
row. -/
theorem filter_key_length_le_one (db : DB) (u : String) (w : ℕ)
    (hwf : wfAlbums db) : (db.albums.filter (albumKey u w)).length ≤ 1 := by
  have hp : (db.albums.filter (albumKey u w)).Pairwise
      (fun r s => ¬ (r.user_id = s.user_id ∧ r.week_start = s.week_start)) :=
    hwf.sublist (List.filter_sublist _)
  rcases hf : db.albums.filter (albumKey u w) with _ | ⟨a, _ | ⟨b, t⟩⟩
  · simp
  · simp
  · exfalso
    rw [hf] at hp
    have hab := (List.pairwise_cons.mp hp).1 b (List.mem_cons_self _ _)
    have hma : a ∈ db.albums.filter (albumKey u w) := by
      rw [hf]; exact List.mem_cons_self _ _
    have hmb : b ∈ db.albums.filter (albumKey u w) := by
      rw [hf]; exact List.mem_cons_of_mem _ (List.mem_cons_self _ _)
    have ha0 : albumKey u w a = true := List.of_mem_filter hma
    have hb0 : albumKey u w b = true := List.of_mem_filter hmb
    have ha' : a.user_id = u ∧ a.week_start = w := of_decide_eq_true ha0
    have hb' : b.user_id = u ∧ b.week_start = w := of_decide_eq_true hb0
    exact hab ⟨ha'.1.trans hb'.1.symm, ha'.2.trans hb'.2.symm⟩

/-- A creation with no existing row for the key succeeds and prepends
a row carrying the key, invoking the artwork chain at most once. -/
theorem create_new_album_ok (vt : Bytes → Bytes) (p : ImageProviders) (db : DB)
    (u : String) (ws we : PyDateTime) (cc : Option Bytes)
    (hany : db.albums.any (albumKey u ws.ord) = false) :
    ∃ dbN row failed,
      create_new_album vt p db u ws we cc = .ok (dbN, row, failed) ∧
      dbN.albums = row :: db.albums ∧
      row.user_id = u ∧ row.week_start = ws.ord ∧
      dbN.gen_count ≤ db.gen_count + 1 := by
  rcases cc with _ | c
  · simp only [create_new_album, upload_vinyl_disk, hany, Bool.false_eq_true,
      if_false]
    exact ⟨_, _, _, rfl, rfl, rfl, rfl, le_refl _⟩
  · simp only [create_new_album, upload_vinyl_disk, hany, Bool.false_eq_true,
      if_false]
    exact ⟨_, _, _, rfl, rfl, rfl, rfl, Nat.le_succ _⟩

/-- C3: two sequential get_or_create_weekly_album calls for the same
user with reference dates in the same Monday-to-Sunday week return the
same album (hence the identical id), the artwork chain is invoked at
most once across both calls, and the second call returns the stored
album immediately (state unchanged) with the failed flag false. -/
theorem C3_theorem (vt : Bytes → Bytes) (p : ImageProviders) (db : DB)
    (user_id : String) (d1 d2 : PyDateTime) (cc1 cc2 : Option Bytes)
    (ws1 we1 ws2 we2 : PyDateTime)
    (hb1 : get_week_boundaries d1 = .ok (ws1, we1))
    (hb2 : get_week_boundaries d2 = .ok (ws2, we2))
    (hsame : ws1.ord = ws2.ord)
    (hwf : wfAlbums db) :
    ∃ db1 A f1,
      get_or_create_weekly_album vt p id db user_id d1 cc1 = .ok (db1, A, f1) ∧
      get_or_create_weekly_album vt p id db1 user_id d2 cc2 =
        .ok (db1, A, false) ∧
      db1.gen_count ≤ db.gen_count + 1 := by
  rcases hlook : get_album_by_week db user_id ws1.ord with _ | r
  · have hfilter : db.albums.filter (albumKey user_id ws1.ord) = [] := by
      have hlen := filter_key_length_le_one db user_id ws1.ord hwf
      rcases hf : db.albums.filter (albumKey user_id ws1.ord)
        with _ | ⟨a, _ | ⟨b, t⟩⟩
      · rfl
      · exfalso
        unfold get_album_by_week at hlook
        rw [hf] at hlook
        exact Option.noConfusion hlook
      · rw [hf] at hlen
        simp at hlen
    have hany : db.albums.any (albumKey user_id ws1.ord) = false := by
      rw [List.any_eq_false]
      exact fun a ha => List.filter_eq_nil_iff.mp hfilter a ha
    obtain ⟨dbN, row, failed, hc, hAlb, hru, hrw, hgen⟩ :=
      create_new_album_ok vt p db user_id ws1 we1 cc1 hany
    refine ⟨dbN, row, failed, ?_, ?_, hgen⟩
    · simp only [get_or_create_weekly_album, hb1, hlook, id_eq, hc]
    · have hrowkey : albumKey user_id ws2.ord row = true :=
        decide_eq_true ⟨hru, by rw [← hsame]; exact hrw⟩
      have hfilter2 : dbN.albums.filter (albumKey user_id ws2.ord) = [row] := by
        rw [hAlb, List.filter_cons_of_pos hrowkey, ← hsame, hfilter]
      have hlook2 : get_album_by_week dbN user_id ws2.ord = some row := by
        unfold get_album_by_week
        rw [hfilter2]
      simp only [get_or_create_weekly_album, hb2, hlook2]
  · refine ⟨db, r, false, ?_, ?_, Nat.le_succ _⟩
    · simp only [get_or_create_weekly_album, hb1, hlook]
    · have hlook2 : get_album_by_week db user_id ws2.ord = some r := by
        rw [← hsame]
        exact hlook
      simp only [get_or_create_weekly_album, hb2, hlook2]

/-- C3, witness for the theorem at a concrete instance: an empty
database and two dates in the same week (a Monday and the following
Saturday). -/
theorem C3_witness :
    ∃ db1 A f1,
      get_or_create_weekly_album id ⟨true, true, .ok [1], .ok [1], [2]⟩ id
        ⟨[], 0, [], 0⟩ "alice" ⟨700001, 0⟩ none = .ok (db1, A, f1) ∧
      get_or_create_weekly_album id ⟨true, true, .ok [1], .ok [1], [2]⟩ id
        db1 "alice" ⟨700006, 500⟩ none = .ok (db1, A, false) ∧
      db1.gen_count ≤ (⟨[], 0, [], 0⟩ : DB).gen_count + 1 :=
  C3_theorem id ⟨true, true, .ok [1], .ok [1], [2]⟩ ⟨[], 0, [], 0⟩ "alice"
    ⟨700001, 0⟩ ⟨700006, 500⟩ none none ⟨700001, 0⟩ ⟨700007, 86399999999⟩
    ⟨700001, 0⟩ ⟨700007, 86399999999⟩ rfl rfl rfl (List.Pairwise.nil)

/-- C6: when every image provider in the chain fails,
generate_album_artwork returns the bundled placeholder with
failed = true instead of raising, and the album-creation path then
returns an album whose stored vinyl disk was built from that
placeholder, with the returned flag true and no error surfaced. -/
theorem C6_theorem (vt : Bytes → Bytes) (p : ImageProviders) (db : DB)
    (user_id : String) (d ws we : PyDateTime)
    (hb : get_week_boundaries d = .ok (ws, we))
    (hg : p.gemini_available = true → p.gemini_result = .error ())
    (ho : p.openai_available = true → p.openai_result = .error ())
    (hnofilter : db.albums.filter (albumKey user_id ws.ord) = []) :
    (generate_album_artwork p).1 = (p.placeholder, true) ∧
    ∃ dbN row,
      get_or_create_weekly_album vt p id db user_id d none =
        .ok (dbN, row, true) ∧
      row.vinyl_disk_url = user_id ++ "/" ++ toString ws.ord ++ "_vinyl.png" ∧
      dbN.storage.lookup row.vinyl_disk_url = some (vt p.placeholder) := by
  have h1 : tryImage p.gemini_available p.gemini_result = none := by
    cases hga : p.gemini_available
    · simp [tryImage]
    · rw [hg hga]
      simp [tryImage]
  have h2 : tryImage p.openai_available p.openai_result = none := by
    cases hoa : p.openai_available
    · simp [tryImage]
    · rw [ho hoa]
      simp [tryImage]
  have hart : (generate_album_artwork p).1 = (p.placeholder, true) := by
    simp [generate_album_artwork, h1, h2]
  refine ⟨hart, ?_⟩
  have hlook : get_album_by_week db user_id ws.ord = none := by
    unfold get_album_by_week
    rw [hnofilter]
  have hany : db.albums.any (albumKey user_id ws.ord) = false := by
    rw [List.any_eq_false]
    exact fun a ha => List.filter_eq_nil_iff.mp hnofilter a ha
  simp only [get_or_create_weekly_album, hb, hlook, id_eq]
  simp only [create_new_album, upload_vinyl_disk, hart, hany,
    Bool.false_eq_true, if_false]
  refine ⟨_, _, rfl, rfl, ?_⟩
  simp [List.lookup]

/-- Image providers for the conflict scenarios: both available, both
succeeding. -/
def imgProvidersOk : ImageProviders := ⟨true, true, .ok [1], .ok [1], [2]⟩

/-- C6, witness: all providers failing on an empty database. -/
theorem C6_witness :
    (generate_album_artwork ⟨true, true, .error (), .error (), [2]⟩).1 =
      ((⟨true, true, .error (), .error (), [2]⟩ : ImageProviders).placeholder,
        true) ∧
    ∃ dbN row,
      get_or_create_weekly_album id ⟨true, true, .error (), .error (), [2]⟩ id
        ⟨[], 0, [], 0⟩ "alice" ⟨700001, 0⟩ none = .ok (dbN, row, true) ∧
      row.vinyl_disk_url = "alice" ++ "/" ++ toString (700001 : ℕ) ++
        "_vinyl.png" ∧
      dbN.storage.lookup row.vinyl_disk_url =
        some (id (⟨true, true, .error (), .error (), [2]⟩ :
          ImageProviders).placeholder) :=
  C6_theorem id ⟨true, true, .error (), .error (), [2]⟩ ⟨[], 0, [], 0⟩ "alice"
    ⟨700001, 0⟩ ⟨700001, 0⟩ ⟨700007, 86399999999⟩ rfl (fun _ => rfl)
    (fun _ => rfl) rfl

/-- A row occupying the (alice, 700001) key, inserted by the winning
concurrent caller. -/
def conflictRow : AlbumRow := ⟨0, "alice", "x", 700001, 700007, "url", 0, false⟩

/-- The interleaved write of the race-winning caller. -/
def raceInsert : DB → DB := fun s => { s with albums := conflictRow :: s.albums }

/-- The empty initial state. -/
def emptyDB : DB := ⟨[], 0, [], 0⟩

/-- Claim C8 as stated: whenever the lookup misses but the insert hits
the uniqueness constraint because a concurrent caller created the
(userId, weekStart) row in between, get_or_create_weekly_album
recovers locally, returning some existing album row rather than an
error. -/
def getOrCreateConflictClaim : Prop :=
  ∀ (vt : Bytes → Bytes) (p : ImageProviders) (concurrent : DB → DB) (db : DB)
    (u : String) (d : PyDateTime) (cc : Option Bytes) (ws we : PyDateTime),
    get_week_boundaries d = .ok (ws, we) →
    get_album_by_week db u ws.ord = none →
    (concurrent db).albums.any (albumKey u ws.ord) = true →
    ∃ dbN row f,
      get_or_create_weekly_album vt p concurrent db u d cc =
        .ok (dbN, row, f) ∧
      row ∈ (concurrent db).albums

/-- C8, counterexample: in the concrete race scenario the call ends in
the propagated uniqueness-conflict error, not in a recovered album. -/
theorem C8_counterexample : ¬ getOrCreateConflictClaim := by
  intro h
  obtain ⟨dbN, row, f, heq, -⟩ :=
    h id imgProvidersOk raceInsert emptyDB "alice" ⟨700001, 0⟩ none
      ⟨700001, 0⟩ ⟨700007, 86399999999⟩ rfl rfl rfl
  have he : get_or_create_weekly_album id imgProvidersOk raceInsert emptyDB
      "alice" ⟨700001, 0⟩ none =
      .error "duplicate key value violates unique constraint" := rfl
  rw [he] at heq
  exact Except.noConfusion heq

/-- C8, amended: the conflicting insert is not caught anywhere in
_create_new_album or get_or_create_weekly_album, so the loser of the
race surfaces the uniqueness-conflict error to the caller; there is no
local re-read. -/
theorem C8_amended (vt : Bytes → Bytes) (p : ImageProviders)
    (concurrent : DB → DB) (db : DB) (u : String) (d : PyDateTime)
    (cc : Option Bytes) (ws we : PyDateTime)
    (hb : get_week_boundaries d = .ok (ws, we))
    (hlook : get_album_by_week db u ws.ord = none)
    (hconf : (concurrent db).albums.any (albumKey u ws.ord) = true) :
    get_or_create_weekly_album vt p concurrent db u d cc =
      .error "duplicate key value violates unique constraint" := by
  simp only [get_or_create_weekly_album, hb, hlook]
  rcases cc with _ | c <;>
    simp [create_new_album, upload_vinyl_disk, hconf]

/-- C8, witness for the amended theorem at a concrete instance. -/
theorem C8_amended_witness :
    get_or_create_weekly_album id imgProvidersOk raceInsert emptyDB "alice"
      ⟨700001, 0⟩ (some [7]) =
      .error "duplicate key value violates unique constraint" :=
  C8_amended id imgProvidersOk raceInsert emptyDB "alice" ⟨700001, 0⟩
    (some [7]) ⟨700001, 0⟩ ⟨700007, 86399999999⟩ rfl rfl rfl

/-! ## LLM content validation model (services/llm.py)

The validator receives the parsed JSON object as an association list
of string-valued fields, exactly as _parse_and_validate_response
accesses it after json.loads (the JSON parser and the markdown fence
stripping feed that parse; json.loads is the Python standard library).
The structural checks of llm.py lines 334-379 are embedded. -/

/-- Python str.count scanning: the fuel argument is a structural bound
on the number of scan steps (one character or one whole match is
consumed per step), so fuel = length of the scanned list is always
enough. -/
def countOccAux (p : List Char) : List Char → ℕ → ℕ
  | _, 0 => 0
  | s, fuel + 1 =>
    match s with
    | [] => 0
    | c :: rest =>
      if p ≠ [] ∧ (c :: rest).take p.length = p then
        1 + countOccAux p ((c :: rest).drop p.length) fuel
      else
        countOccAux p rest fuel

/-- Python str.count: number of non-overlapping occurrences of the
pattern, scanning left to right. -/
def countOcc (pat s : String) : ℕ :=
  countOccAux pat.data s.data s.data.length

/-- Token accumulator for whitespace splitting: acc holds the current
token in reverse. -/
def wsTokens : List Char → List Char → List String
  | [], [] => []
  | [], acc => [⟨acc.reverse⟩]
  | c :: rest, acc =>
    if c.isWhitespace then
      match acc with
      | [] => wsTokens rest []
      | _ => ⟨acc.reverse⟩ :: wsTokens rest []
    else wsTokens rest (c :: acc)

/-- Python str.split with no separator: split on whitespace runs,
producing no empty fragments. -/
def splitWs (s : String) : List String := wsTokens s.data []

def requiredFields : List String :=
  ["genre_tags", "lyrics", "title", "description"]

/-- Embedding of the validation stage of _parse_and_validate_response
(llm.py lines 334-412): missing-field check in declaration order, then
the section-marker counts on the lowercased lyrics (exactly one verse,
exactly one chorus, no bridge, outro or intro), then the genre-tag
token floor of 3; every failed check raises ValueError, embedded as
Except.error; on success the parsed data is returned unchanged. -/
def validateParsed (data : List (String × String)) :
    Except String (List (String × String)) :=
  match requiredFields.find? (fun f => (data.lookup f).isNone) with
  | some f => .error ("Missing required field: " ++ f)
  | none =>
    let lyrics := (data.lookup "lyrics").getD ""
    let lyrics_lower := pyLower lyrics
    let verse_count := countOcc "[verse]" lyrics_lower
    let chorus_count := countOcc "[chorus]" lyrics_lower
    let bridge_count := countOcc "[bridge]" lyrics_lower
    let outro_count := countOcc "[outro]" lyrics_lower
    let intro_count := countOcc "[intro]" lyrics_lower
    if verse_count < 1 then .error "Lyrics missing [verse] section"
    else if chorus_count < 1 then .error "Lyrics missing [chorus] section"
    else if 1 < verse_count then .error "Too many verses"
    else if 1 < chorus_count then .error "Too many choruses"
    else if 0 < bridge_count ∨ 0 < outro_count ∨ 0 < intro_count then
      .error "Extra sections not allowed"
    else
      let genre_tags := pyStrip ((data.lookup "genre_tags").getD "")
      if (splitWs genre_tags).length < 3 then
        .error "Genre tags must have at least 3 components"
      else .ok data

/-- All four required fields are present. -/
def c5fields (data : List (String × String)) : Prop :=
  (data.lookup "title").isSome ∧ (data.lookup "description").isSome ∧
  (data.lookup "genre_tags").isSome ∧ (data.lookup "lyrics").isSome

instance (data : List (String × String)) : Decidable (c5fields data) := by
  unfold c5fields; infer_instance

/-- The acceptance conditions exactly as claim C5 lists them: a parsed
object with all four fields, exactly one case-insensitive verse
marker, exactly one case-insensitive chorus marker, and at least 3
whitespace-separated genre-tag tokens. -/
def c5conditions (data : List (String × String)) : Prop :=
  c5fields data ∧
  countOcc "[verse]" (pyLower ((data.lookup "lyrics").getD "")) = 1 ∧
  countOcc "[chorus]" (pyLower ((data.lookup "lyrics").getD "")) = 1 ∧
  3 ≤ (splitWs (pyStrip ((data.lookup "genre_tags").getD ""))).length

instance (data : List (String × String)) : Decidable (c5conditions data) := by
  unfold c5conditions; infer_instance

/-- Claim C5 as stated (acceptance direction): every response meeting
the listed conditions is accepted. -/
def contentValidatorClaim : Prop :=
  ∀ data, c5conditions data → validateParsed data = .ok data

/-- A response meeting every condition of claim C5 but containing a
bridge marker. -/
def dataBridge : List (String × String) :=
  [("title", "t"), ("description", "d"), ("genre_tags", "pop rock indie"),
    ("lyrics", "[verse] aa bb\n[chorus] cc dd\n[bridge] ee")]

/-- C5, counterexample: the validator also rejects lyrics containing
bridge, outro or intro markers, which the acceptance conditions of the
claim do not exclude, so dataBridge meets the claimed conditions yet
is rejected. -/
theorem C5_counterexample : ¬ contentValidatorClaim := by
  intro h
  have h1 := h dataBridge (by decide)
  have h2 : validateParsed dataBridge = .error "Extra sections not allowed" :=
    rfl
  rw [h1] at h2
  exact Except.noConfusion h2

/-- C5, amended: the validator rejects lyrics with two verse markers,
rejects lyrics with zero chorus markers, and accepts exactly the
responses with all four fields, exactly one verse marker, exactly one
chorus marker, at least 3 genre-tag tokens, and additionally no
bridge, outro or intro markers. -/
theorem C5_amended :
    (∀ (data : List (String × String)) (lyrics : String),
      data.lookup "lyrics" = some lyrics →
      countOcc "[verse]" (pyLower lyrics) = 2 →
      ∃ e, validateParsed data = .error e) ∧
    (∀ (data : List (String × String)) (lyrics : String),
      data.lookup "lyrics" = some lyrics →
      countOcc "[chorus]" (pyLower lyrics) = 0 →
      ∃ e, validateParsed data = .error e) ∧
    (∀ data : List (String × String), c5conditions data →
      countOcc "[bridge]" (pyLower ((data.lookup "lyrics").getD "")) = 0 →
      countOcc "[outro]" (pyLower ((data.lookup "lyrics").getD "")) = 0 →
      countOcc "[intro]" (pyLower ((data.lookup "lyrics").getD "")) = 0 →
      validateParsed data = .ok data) := by
  refine ⟨?_, ?_, ?_⟩
  · intro data lyrics hl hcnt
    rcases hfind : requiredFields.find? (fun f => (data.lookup f).isNone)
      with _ | f
    · have hget : (data.lookup "lyrics").getD "" = lyrics := by rw [hl]; rfl
      by_cases hch : countOcc "[chorus]" (pyLower lyrics) < 1
      · refine ⟨"Lyrics missing [chorus] section", ?_⟩
        simp only [validateParsed, hfind, hget, hcnt]
        rw [if_neg (by norm_num : ¬ (2 : ℕ) < 1), if_pos hch]
      · refine ⟨"Too many verses", ?_⟩
        simp only [validateParsed, hfind, hget, hcnt]
        rw [if_neg (by norm_num : ¬ (2 : ℕ) < 1), if_neg hch,
          if_pos (by norm_num : (1 : ℕ) < 2)]
    · refine ⟨"Missing required field: " ++ f, ?_⟩
      simp only [validateParsed, hfind]
  · intro data lyrics hl hcnt
    rcases hfind : requiredFields.find? (fun f => (data.lookup f).isNone)
      with _ | f
    · have hget : (data.lookup "lyrics").getD "" = lyrics := by rw [hl]; rfl
      by_cases hv1 : countOcc "[verse]" (pyLower lyrics) < 1
      · refine ⟨"Lyrics missing [verse] section", ?_⟩
        simp only [validateParsed, hfind, hget, hcnt]
        rw [if_pos hv1]
      · refine ⟨"Lyrics missing [chorus] section", ?_⟩
        simp only [validateParsed, hfind, hget, hcnt]
        rw [if_neg hv1, if_pos (by norm_num : (0 : ℕ) < 1)]
    · refine ⟨"Missing required field: " ++ f, ?_⟩
      simp only [validateParsed, hfind]
  · intro data hcond hb0 ho0 hi0
    obtain ⟨⟨ht, hd, hg, hl⟩, hv, hc, hg3⟩ := hcond
    have hnone : ∀ k : String, (data.lookup k).isSome →
        (data.lookup k).isNone = false := by
      intro k hk
      rcases hx : data.lookup k with _ | v
      · rw [hx] at hk
        simp at hk
      · simp
    have hfind : requiredFields.find? (fun f => (data.lookup f).isNone) =
        none := by
      rw [List.find?_eq_none]
      intro f hf
      fin_cases hf <;>
        simp [hnone _ ht, hnone _ hd, hnone _ hg, hnone _ hl]
    simp only [validateParsed, hfind, hv, hc, hb0, ho0, hi0]
    rw [if_neg (by norm_num : ¬ (1 : ℕ) < 1),
      if_neg (by norm_num : ¬ (1 : ℕ) < 1),
      if_neg (by norm_num : ¬ (1 : ℕ) < (1 : ℕ)),
      if_neg (by norm_num : ¬ (1 : ℕ) < (1 : ℕ)),
      if_neg (by norm_num :
        ¬ ((0 : ℕ) < 0 ∨ (0 : ℕ) < 0 ∨ (0 : ℕ) < 0)),
      if_neg (by omega : ¬ (splitWs
        (pyStrip ((data.lookup "genre_tags").getD ""))).length < 3)]

/-- A response with two verse markers. -/
def dataTwoVerses : List (String × String) :=
  [("title", "t"), ("description", "d"), ("genre_tags", "pop rock indie"),
    ("lyrics", "[verse] aa\n[verse] bb\n[chorus] cc")]

/-- A well-formed response: one verse, one chorus, three genre
tokens. -/
def dataGood : List (String × String) :=
  [("title", "t"), ("description", "d"), ("genre_tags", "pop rock indie"),
    ("lyrics", "[verse] aa\n[chorus] bb")]

/-- C5, witness for the amended theorem at concrete instances. -/
theorem C5_amended_witness :
    (∃ e, validateParsed dataTwoVerses = .error e) ∧
    validateParsed dataGood = .ok dataGood :=
  ⟨C5_amended.1 dataTwoVerses "[verse] aa\n[verse] bb\n[chorus] cc" rfl
      (by decide),
    C5_amended.2.2 dataGood (by decide) (by decide) (by decide) (by decide)⟩

end TuneTools
